import Mathlib

/-!
Shallow embedding of the ZilaWS server core (zilaws-server, TypeScript):
the message envelope, the callback registry, the envelope dispatcher
(`ZilaServer.callMessageHandler`, src/index.ts), the waiter correlation
protocol (`ZilaClient.waiter` / `waiterTimeout`, src/ZilaClient.ts), the
broadcast fan-out, the ban logic, and the server-wrapper lifecycle
(src/wrappers/NodeServerWrapper.ts, src/wrappers/BunServerWrapper.ts).

JavaScript values carried in message payloads are modelled by the JSON
value type `JVal`; JS `null` and absent (`undefined`) option fields are
modelled with `Option`. Side effects (logging, firing observers, invoking
handlers, sending envelopes, closing sockets) are modelled as an explicit
effect trace.
-/

namespace ZilaWS

/-- JSON values: the payload universe of wire messages. `message` entries are
arbitrary JSON-serializable values. -/
inductive JVal where
  | null : JVal
  | bool : Bool → JVal
  | num : Int → JVal
  | str : String → JVal
  | arr : List JVal → JVal
  | obj : List (String × JVal) → JVal

/-- The wire unit, mirroring `IWSMessage` (src/interfaces/IWSMessage.ts):
`identifier : string`, `message : any[] | null`, `callbackId : string | null`.
`none` models the JS `null`. -/
structure IWSMessage where
  identifier : String
  message : Option (List JVal)
  callbackId : Option String

/-- A user message handler: consumes the spread payload list and returns a
value. The connection argument of `ZilaWSCallback` is dropped; it does not
affect registry state. -/
abbrev HandlerFn := List JVal → JVal

/-- Defunctionalization of the closures stored in `ZilaServer.callbacks`:
`persistent` is a plain `setMessageHandler` registration; `once` is the
self-removing wrapper installed by `onceMessageHandler` (src/index.ts
lines 563-568); `waiterReply` is the one-shot reply closure registered by
`ZilaClient.waiter` / `waiterTimeout` under a fresh correlation id
(src/ZilaClient.ts lines 183-189): on invocation it clears the timer,
removes itself and resolves the pending waiter. -/
inductive Registration where
  | persistent : HandlerFn → Registration
  | once : HandlerFn → Registration
  | waiterReply : String → Registration

/-- A string-keyed map (JS object / `Map`), modelled as an association list
whose operations keep at most one entry per key. -/
abbrev AssocMap (β : Type) := List (String × β)

/-- Key lookup in a string-keyed map. -/
def assocFind {β : Type} (m : AssocMap β) (k : String) : Option β :=
  (m.find? (fun p => p.1 == k)).map (fun p => p.2)

/-- Key assignment in a string-keyed map, replacing any previous entry. -/
def assocSet {β : Type} (m : AssocMap β) (k : String) (v : β) : AssocMap β :=
  (k, v) :: m.filter (fun p => ! (p.1 == k))

/-- Key deletion in a string-keyed map. -/
def assocDelete {β : Type} (m : AssocMap β) (k : String) : AssocMap β :=
  m.filter (fun p => ! (p.1 == k))

/-- The `callbacks` object of `ZilaServer` (`{ [id: string]: ZilaWSCallback }`,
src/index.ts line 165). -/
abbrev CallbackMap := AssocMap Registration

/-- Lookup `this.callbacks[identifier]`. -/
def lookupCallback (m : CallbackMap) (id : String) : Option Registration :=
  assocFind m id

/-- `this.callbacks[identifier] = callback` (src/index.ts line 547):
assignment into the string-keyed object, replacing any previous entry. -/
def setMessageHandler (m : CallbackMap) (id : String) (reg : Registration) : CallbackMap :=
  assocSet m id reg

/-- `delete this.callbacks[identifier]` (`removeMessageHandler`,
src/index.ts line 555). -/
def removeMessageHandler (m : CallbackMap) (id : String) : CallbackMap :=
  assocDelete m id

/-- `onceMessageHandler` (src/index.ts lines 563-568): stores the
self-removing wrapper under `identifier` by plain assignment. -/
def onceMessageHandler (m : CallbackMap) (id : String) (f : HandlerFn) : CallbackMap :=
  setMessageHandler m id (Registration.once f)

/-- Whether a registration currently exists under `id`. -/
def hasHandler (m : CallbackMap) (id : String) : Bool :=
  (lookupCallback m id).isSome

/-- `msgObj.identifier[0] != "@"` negated: whether the identifier begins with
the reserved marker character `@` (src/index.ts line 656). An empty
identifier has no first character and so does not carry the marker. -/
def hasMarker (s : String) : Bool :=
  match s.data with
  | [] => false
  | c :: _ => c == '@'

/-- `msgObj.identifier.slice(1)` (src/index.ts line 687): the identifier with
its first character removed. -/
def stripMarker (s : String) : String :=
  ⟨s.data.drop 1⟩

/-- `getMessageJSON` (src/ZilaClient.ts lines 135-147): serializes an envelope
to the wire JSON object `{identifier, message, callbackId}`; when `isBuiltIn`
the identifier is prefixed with `@`. JS `null` fields serialize as JSON null. -/
def getMessageJSON (identifier : String) (data : Option (List JVal))
    (callbackId : Option String) (isBuiltIn : Bool) : JVal :=
  JVal.obj
    [("identifier", JVal.str (if isBuiltIn then "@" ++ identifier else identifier)),
     ("message", match data with
       | none => JVal.null
       | some xs => JVal.arr xs),
     ("callbackId", match callbackId with
       | none => JVal.null
       | some c => JVal.str c)]

/-- Field access on a parsed JSON object, as the receiving end of the protocol
reads `identifier`, `message` and `callbackId` off the `JSON.parse` result. -/
def jsonField (j : JVal) (name : String) : Option JVal :=
  match j with
  | JVal.obj fields => (fields.find? (fun p => p.1 == name)).map (fun p => p.2)
  | _ => none

/-- Reads the `message` field back: JSON null means the JS `null` payload,
a JSON array is the payload list; any other shape is not a valid envelope. -/
def decodeMessageField : JVal → Option (Option (List JVal))
  | JVal.null => some none
  | JVal.arr xs => some (some xs)
  | _ => none

/-- Reads the `callbackId` field back: JSON null means no correlation id. -/
def decodeCallbackField : JVal → Option (Option String)
  | JVal.null => some none
  | JVal.str s => some (some s)
  | _ => none

/-- Decoding of a wire JSON value into an `IWSMessage`: the three fields are
read off the parsed object; a missing or ill-shaped field fails the parse. -/
def parseWSMessage (j : JVal) : Option IWSMessage :=
  match jsonField j "identifier", (jsonField j "message").bind decodeMessageField,
        (jsonField j "callbackId").bind decodeCallbackField with
  | some (JVal.str idf), some msg, some cb => some ⟨idf, msg, cb⟩
  | _, _, _ => none

/-- WebSocket close codes used by the server (src/enums.ts `CloseCodes`). -/
def CloseCodes.NORMAL : Nat := 1000

/-- `CloseCodes.KICKED` (src/enums.ts). -/
def CloseCodes.KICKED : Nat := 4001

/-- `CloseCodes.BANNED` (src/enums.ts). -/
def CloseCodes.BANNED : Nat := 4002

/-- The observable side effects of the server core operations, recorded as a
trace in invocation order: logging a bad-message warning, the cookie-sync
built-in storing synced cookies, firing a registered `onCookieSync`,
`onClientRawMessageBeforeCallback`, `onClientMessageBeforeCallback` or
`onClientConnect` observer, invoking a user message handler with its spread
payload, writing an envelope to the peer socket, and closing a socket with a
close code and optional reason. -/
inductive Effect where
  | warnBadMessage : Effect
  | storeSyncedCookies : String → Effect
  | fireCookieSync : Effect
  | fireRaw : String → Effect
  | fireBefore : String → Option (List JVal) → Effect
  | fireClientConnect : Effect
  | invokeHandler : String → List JVal → Effect
  | sendEnvelope : IWSMessage → Effect
  | closeSocket : Nat → Option String → Effect

/-- Discriminator: is the effect a `fireBefore` observer call. -/
def Effect.isFireBefore : Effect → Bool
  | Effect.fireBefore _ _ => true
  | _ => false

/-- Discriminator: is the effect a `fireRaw` observer call. -/
def Effect.isFireRaw : Effect → Bool
  | Effect.fireRaw _ => true
  | _ => false

/-- Discriminator: is the effect a user-handler invocation. -/
def Effect.isInvoke : Effect → Bool
  | Effect.invokeHandler _ _ => true
  | _ => false

/-- Discriminator: is the effect an envelope write to the socket. -/
def Effect.isSendEnvelope : Effect → Bool
  | Effect.sendEnvelope _ => true
  | _ => false

/-- Discriminator: is the effect a socket close. -/
def Effect.isCloseSocket : Effect → Bool
  | Effect.closeSocket _ _ => true
  | _ => false

/-- Discriminator: is the effect a bad-message warning log. -/
def Effect.isWarn : Effect → Bool
  | Effect.warnBadMessage => true
  | _ => false

/-- The slice of `ZilaServer` state the dispatcher reads: the shared callback
map and the number of registered observers of each relevant server event
(`serverEvents.onClientRawMessageBeforeCallback`,
`serverEvents.onClientMessageBeforeCallback`, `serverEvents.onCookieSync`). -/
structure ServerState where
  callbacks : CallbackMap
  rawObservers : Nat
  beforeObservers : Nat
  cookieSyncObservers : Nat

/-- Applying a stored registration to the spread payload, returning the
updated callback map and the value the callback produced:
a `persistent` handler leaves the map unchanged; the `once` wrapper first
removes its own registration and then runs the wrapped callback, propagating
its return value (src/index.ts lines 563-568); the waiter reply closure
removes its own registration and returns no value (`void`, which the JSON
wire layer serializes as null). -/
def applyRegistration (m : CallbackMap) (id : String) (reg : Registration)
    (payload : List JVal) : CallbackMap × JVal :=
  match reg with
  | Registration.persistent f => (m, f payload)
  | Registration.once f => (removeMessageHandler m id, f payload)
  | Registration.waiterReply _ => (removeMessageHandler m id, JVal.null)

/-- The non-marker (`identifier[0] != "@"`) branch of `callMessageHandler`
(src/index.ts lines 656-685): the built-in inner events. Only `SyncCookies`
is handled: when the payload list is present (a JS array always passes the
`typeof == "object" && hasOwn length` guard), its first element is fed to the
cookie parser; a string head parses and is stored via
`ZilaClient.StoreSyncedCookies`, after which every registered `onCookieSync`
observer runs; a missing or non-string head makes the cookie parser throw,
which the surrounding catch turns into a bad-message warning. Any other
non-marker identifier is dropped without effect. -/
def innerEvent (st : ServerState) (msgObj : IWSMessage) : List Effect :=
  if msgObj.identifier == "SyncCookies" then
    match msgObj.message with
    | some payload =>
      match payload.head? with
      | some (JVal.str c) =>
        Effect.storeSyncedCookies c ::
          List.replicate st.cookieSyncObservers Effect.fireCookieSync
      | _ => [Effect.warnBadMessage]
    | none => []
  else []

/-- The observer notifications of the marker (user-message) branch of
`callMessageHandler` (src/index.ts lines 689-699): every registered
`onClientRawMessageBeforeCallback` observer fires with the raw text, then
every registered `onClientMessageBeforeCallback` observer fires with the
stripped identifier and the payload. -/
def userObserverFx (st : ServerState) (raw : String) (m : IWSMessage) : List Effect :=
  List.replicate st.rawObservers (Effect.fireRaw raw) ++
    List.replicate st.beforeObservers
      (Effect.fireBefore (stripMarker m.identifier) m.message)

/-- The reply step after a handler invocation (src/index.ts lines 703-707):
`if (msgObj.callbackId && msgObj.callbackId != null)` — only a truthy
callbackId (non-null and non-empty) triggers `this.send(socket,
msgObj.callbackId, val)`, which writes the envelope
`{identifier: callbackId, message: [val], callbackId: null}`
(src/ZilaClient.ts lines 154-156). -/
def replyFx (cb : Option String) (val : JVal) : List Effect :=
  match cb with
  | some cid =>
    if cid == "" then []
    else [Effect.sendEnvelope ⟨cid, some [val], none⟩]
  | none => []

/-- `ZilaServer.callMessageHandler` (src/index.ts lines 642-710) given the
result of `JSON.parse` on the raw text: a parse failure logs a bad-message
warning and drops the message. An identifier without the leading `@` marker
is routed to the built-in inner-event branch. An identifier with the marker
is a user message: the marker is stripped, every registered raw-message and
before-callback observer fires, and the handler table is consulted under the
stripped identifier; if a registration exists and the payload list is present
the handler is invoked with the spread payload, and, when the envelope
carries a truthy `callbackId` (non-null and non-empty), the returned value is
sent back in a reply envelope `{identifier: callbackId, message: [value],
callbackId: null}` via `ZilaServer.send` / `ZilaClient.send`
(src/index.ts lines 701-708, src/ZilaClient.ts lines 154-156). -/
def callMessageHandler (st : ServerState) (raw : String)
    (parsed : Option IWSMessage) : CallbackMap × List Effect :=
  match parsed with
  | none => (st.callbacks, [Effect.warnBadMessage])
  | some msgObj =>
    if hasMarker msgObj.identifier then
      let stripped := stripMarker msgObj.identifier
      match lookupCallback st.callbacks stripped, msgObj.message with
      | some reg, some payload =>
        let apcb := applyRegistration st.callbacks stripped reg payload
        (apcb.1, userObserverFx st raw msgObj ++
          Effect.invokeHandler stripped payload :: replyFx msgObj.callbackId apcb.2)
      | _, _ => (st.callbacks, userObserverFx st raw msgObj)
    else
      (st.callbacks, innerEvent st msgObj)

/-- The registration step of `ZilaClient.waiter` / `waiterTimeout`
(src/ZilaClient.ts lines 175-234): a fresh correlation id `uuid` is drawn,
the one-shot reply closure is registered under it through
`setMessageHandler`, and an envelope with `callbackId = uuid` is written to
the socket (`getMessageJSON(identifier, data, uuid)`). Returns the updated
callback map and the envelope sent. -/
def waiterSend (m : CallbackMap) (identifier : String) (data : List JVal)
    (uuid : String) : CallbackMap × IWSMessage :=
  (setMessageHandler m uuid (Registration.waiterReply uuid),
   ⟨identifier, some data, some uuid⟩)

/-- The reply side of the waiter race (src/ZilaClient.ts lines 183-189): the
registered closure fires with the spread reply payload, clears the timer,
removes its own registration and resolves the waiter with the first payload
element (`undefined`, i.e. `none`, when the reply payload is empty). -/
def waiterOnReply (m : CallbackMap) (uuid : String) (args : List JVal) :
    CallbackMap × Option JVal :=
  (removeMessageHandler m uuid, args.head?)

/-- The timer side of the waiter race (src/ZilaClient.ts lines 190-194 and
224-228): on expiry the callback runs `_r(undefined)` and nothing else — the
waiter resolves to the absent value and the callback map is untouched. -/
def waiterOnTimeout (m : CallbackMap) (uuid : String) :
    CallbackMap × Option JVal :=
  (m, none)

/-- A logical connection as the registry sees it: its optional remote
address (`req.socket.remoteAddress` / `ZilaClient.ip`). -/
structure Conn where
  ip : Option String
deriving DecidableEq

/-- The `bannedIpsAndReasons` map (`Map<string, string | undefined>`,
src/index.ts line 167): remote address to optional ban reason. -/
abbrev BanMap := AssocMap (Option String)

/-- `bannedIpsAndReasons.get(addr)`: `none` when no entry exists (including a
lookup with an undefined address); `some r` gives the stored optional
reason. -/
def banLookup (b : BanMap) (addr : Option String) : Option (Option String) :=
  match addr with
  | none => none
  | some a => assocFind b a

/-- `bannedIpsAndReasons.set(ip, reason)`. -/
def banSet (b : BanMap) (ip : String) (reason : Option String) : BanMap :=
  assocSet b ip reason

/-- The slice of `ZilaServer` state the connection registry touches: the ban
map, the `_clients` array, the `hasrequested` flag set by the plain-HTTP
request listener, and the number of registered `onClientConnect`
observers. -/
structure RegistryState where
  bannedIpsAndReasons : BanMap
  clients : List Conn
  hasrequested : Bool
  connectObservers : Nat

/-- The `connection` listener of `ZilaServer` (src/index.ts lines 305-333):
only when no plain HTTP request has been seen (`!this.hasrequested`) the ban
map is consulted for the remote address, and a truthy stored reason (an entry
whose reason is a non-empty string) closes the fresh socket with
`CloseCodes.BANNED`; in every case the listener then constructs the client
object, appends it to `_clients`, and fires each `onClientConnect`
observer. -/
def onConnection (st : RegistryState) (remoteAddress : Option String) :
    RegistryState × List Effect :=
  let banFx : List Effect :=
    if st.hasrequested then []
    else
      match banLookup st.bannedIpsAndReasons remoteAddress with
      | some (some r) =>
        if r == "" then [] else [Effect.closeSocket CloseCodes.BANNED (some r)]
      | _ => []
  ({ st with clients := st.clients ++ [⟨remoteAddress⟩] },
   banFx ++ List.replicate st.connectObservers Effect.fireClientConnect)

/-- `ZilaServer.banClient` (src/index.ts lines 585-590): the client socket is
closed with `CloseCodes.BANNED` and the given reason; only when the client
`ip` is truthy (defined and non-empty) is an entry recorded in the ban
map. -/
def banClient (st : RegistryState) (c : Conn) (reason : Option String) :
    RegistryState × List Effect :=
  let bans :=
    match c.ip with
    | some ip =>
      if ip == "" then st.bannedIpsAndReasons
      else banSet st.bannedIpsAndReasons ip reason
    | none => st.bannedIpsAndReasons
  ({ st with bannedIpsAndReasons := bans },
   [Effect.closeSocket CloseCodes.BANNED reason])

/-- The server lifecycle states (src/enums.ts `WSStatus`). -/
inductive WSStatus where
  | OPENING : WSStatus
  | OPEN : WSStatus
  | CLOSED : WSStatus
  | ERROR : WSStatus
deriving DecidableEq

/-- The slice of a server wrapper the lifecycle operations touch: the
`_status` field (src/wrappers/ServerWrapper.ts line 17) and its set of
connected clients. -/
structure WrapperState where
  status : WSStatus
  clients : List Conn

/-- `NodeServerWrapper.close` (src/wrappers/NodeServerWrapper.ts lines
150-186): from `CLOSED` or `ERROR` it throws `"The server is not running"`
before any mutation; otherwise `_status` becomes `CLOSED` and every connected
client is closed with `CloseCodes.NORMAL` and the reason (defaulting to
`"The server has been stopped."`). -/
def NodeServerWrapper.close (st : WrapperState) (reason : Option String) :
    Except String (WrapperState × List Effect) :=
  if st.status = WSStatus.CLOSED ∨ st.status = WSStatus.ERROR then
    Except.error "The server is not running"
  else
    Except.ok ({ st with status := WSStatus.CLOSED },
      st.clients.map (fun _ =>
        Effect.closeSocket CloseCodes.NORMAL
          (some (reason.getD "The server has been stopped."))))

/-- `NodeServerWrapper.closeAsync` (src/wrappers/NodeServerWrapper.ts lines
188-215): the same guard and transition; the close signal to each client is
awaited before the listening resources are released. -/
def NodeServerWrapper.closeAsync (st : WrapperState) (reason : Option String) :
    Except String (WrapperState × List Effect) :=
  if st.status = WSStatus.CLOSED ∨ st.status = WSStatus.ERROR then
    Except.error "The server is not running"
  else
    Except.ok ({ st with status := WSStatus.CLOSED },
      st.clients.map (fun _ =>
        Effect.closeSocket CloseCodes.NORMAL
          (some (reason.getD "The server has been stopped."))))

/-- `BunServerWrapper.close` (src/wrappers/BunServerWrapper.ts lines
272-294): the same guard; on success every connected client is closed with
`CloseCodes.NORMAL`, the Bun server is stopped, and `connectedClients` is
cleared. -/
def BunServerWrapper.close (st : WrapperState) (reason : Option String) :
    Except String (WrapperState × List Effect) :=
  if st.status = WSStatus.CLOSED ∨ st.status = WSStatus.ERROR then
    Except.error "The server is not running"
  else
    Except.ok (⟨WSStatus.CLOSED, []⟩,
      st.clients.map (fun _ =>
        Effect.closeSocket CloseCodes.NORMAL
          (some (reason.getD "The server has been stopped."))))

/-- `BunServerWrapper.closeAsync` (src/wrappers/BunServerWrapper.ts lines
296-322): guard on `CLOSED`/`ERROR`, close every client with
`CloseCodes.NORMAL` awaiting the signals, stop the server, clear
`connectedClients`, and set `_status` to `CLOSED`. -/
def BunServerWrapper.closeAsync (st : WrapperState) (reason : Option String) :
    Except String (WrapperState × List Effect) :=
  if st.status = WSStatus.CLOSED ∨ st.status = WSStatus.ERROR then
    Except.error "The server is not running"
  else
    Except.ok (⟨WSStatus.CLOSED, []⟩,
      st.clients.map (fun _ =>
        Effect.closeSocket CloseCodes.NORMAL
          (some (reason.getD "The server has been stopped."))))

/-- The wrapper states a caller can ever hold: both wrapper constructors
return only after setting `_status` to `OPEN`
(src/wrappers/NodeServerWrapper.ts line 139, src/wrappers/BunServerWrapper.ts
line 101 — the Bun failure path sets `ERROR` but throws, so no instance
escapes), and afterwards the state evolves through connection arrivals and
departures and through the close operations. -/
inductive WrapperReachable : WrapperState → Prop where
  | started (clients : List Conn) : WrapperReachable ⟨WSStatus.OPEN, clients⟩
  | clientsChanged (st : WrapperState) (clients : List Conn) :
      WrapperReachable st → WrapperReachable ⟨st.status, clients⟩
  | nodeClosed (st st' : WrapperState) (r : Option String) (fx : List Effect) :
      WrapperReachable st → NodeServerWrapper.close st r = Except.ok (st', fx) →
      WrapperReachable st'
  | nodeClosedAsync (st st' : WrapperState) (r : Option String) (fx : List Effect) :
      WrapperReachable st → NodeServerWrapper.closeAsync st r = Except.ok (st', fx) →
      WrapperReachable st'
  | bunClosed (st st' : WrapperState) (r : Option String) (fx : List Effect) :
      WrapperReachable st → BunServerWrapper.close st r = Except.ok (st', fx) →
      WrapperReachable st'
  | bunClosedAsync (st st' : WrapperState) (r : Option String) (fx : List Effect) :
      WrapperReachable st → BunServerWrapper.closeAsync st r = Except.ok (st', fx) →
      WrapperReachable st'

/-- One waiter call as an abstract timed outcome: the value it resolves with
and the event-loop instant at which it settles. -/
structure WaiterOutcome where
  value : Option JVal
  time : Nat

/-- The race inside a waiter between the one-shot reply handler and the
timeout timer (src/ZilaClient.ts lines 181-196 / 215-230), over an abstract
reply schedule: `some (t, v)` means a matching reply carrying `v` arrives at
instant `t`; a reply strictly before the timeout wins the race and settles
the waiter with its value, otherwise the timer fires at `timeout` and
settles the waiter with the absent value. -/
def waiterRace (timeout : Nat) (reply : Option (Nat × JVal)) : WaiterOutcome :=
  match reply with
  | some (t, v) => if t < timeout then ⟨some v, t⟩ else ⟨none, timeout⟩
  | none => ⟨none, timeout⟩

/-- One settled promise, as produced by `Promise.allSettled`. -/
inductive SettledResult (α : Type) where
  | fulfilled : α → SettledResult α
  | rejected : String → SettledResult α

/-- The aggregation step of `broadcastWaiter` / `broadcastWaiterTimeout`
(src/index.ts lines 505-509 and 530-534): each settled entry is mapped to its
value when fulfilled and to `undefined` when rejected. -/
def collectSettled (resp : List (SettledResult (Option JVal))) :
    List (Option JVal) :=
  resp.map (fun el =>
    match el with
    | SettledResult.fulfilled v => v
    | SettledResult.rejected _ => none)

/-- `ZilaServer.broadcastWaiterTimeout` (src/index.ts lines 521-537) over the
abstract reply schedule: the promise list is built synchronously over the
`_clients` snapshot taken at call time, one waiter per snapshot entry in
order (`replies` is indexed like that snapshot); each waiter promise settles
fulfilled with its race outcome (the waiter executor never rejects), and the
settled values are collected in order. Returns the value list and the
instant at which the aggregate resolves (`Promise.allSettled` resolves when
the last constituent does). `broadcastWaiter` (lines 496-512) is the same
with the server-wide `maxWaiterTime` as the timeout. -/
def broadcastWaiterTimeout (timeout : Nat)
    (replies : List (Option (Nat × JVal))) : List (Option JVal) × Nat :=
  let outcomes := replies.map (waiterRace timeout)
  (collectSettled (outcomes.map (fun o => SettledResult.fulfilled o.value)),
   outcomes.foldr (fun o acc => max o.time acc) 0)

theorem assocFind_set_self {β : Type} (m : AssocMap β) (k : String) (v : β) :
    assocFind (assocSet m k v) k = some v := by
  simp [assocFind, assocSet, List.find?]

theorem find?_filter_of_ne {β : Type} (m : AssocMap β) (k a : String) (h : a ≠ k) :
    (m.filter (fun p => ! (p.1 == k))).find? (fun p => p.1 == a) =
      m.find? (fun p => p.1 == a) := by
  induction m with
  | nil => rfl
  | cons x l ih =>
    by_cases hx : (x.1 == k) = true
    · have hx' : x.1 = k := by simpa using hx
      have hxa : (x.1 == a) = false := by
        rw [beq_eq_false_iff_ne, hx']
        exact fun hk => h hk.symm
      rw [List.filter_cons_of_neg (by simp [hx]), ih,
        List.find?_cons_of_neg _ (by simp [hxa])]
    · have hxk : (x.1 == k) = false := by simpa using hx
      rw [List.filter_cons_of_pos (by simp [hxk])]
      by_cases hxa : (x.1 == a) = true
      · rw [List.find?_cons_of_pos _ (by simp [hxa]),
          List.find?_cons_of_pos _ (by simp [hxa])]
      · have hxa' : (x.1 == a) = false := by simpa using hxa
        rw [List.find?_cons_of_neg _ (by simp [hxa']),
          List.find?_cons_of_neg _ (by simp [hxa']), ih]

theorem assocFind_set_ne {β : Type} (m : AssocMap β) (k a : String) (v : β)
    (h : a ≠ k) : assocFind (assocSet m k v) a = assocFind m a := by
  have hk : (k == a) = false := by
    rw [beq_eq_false_iff_ne]
    exact fun hk => h hk.symm
  simp [assocFind, assocSet, List.find?, hk, find?_filter_of_ne m k a h]

theorem assocFind_delete_self {β : Type} (m : AssocMap β) (k : String) :
    assocFind (assocDelete m k) k = none := by
  simp only [assocFind, assocDelete, Option.map_eq_none', List.find?_eq_none,
    List.mem_filter]
  intro x hx
  simpa using hx.2

theorem assocFind_delete_ne {β : Type} (m : AssocMap β) (k a : String)
    (h : a ≠ k) : assocFind (assocDelete m k) a = assocFind m a := by
  simp [assocFind, assocDelete, find?_filter_of_ne m k a h]

theorem countP_replicate {α : Type} (p : α → Bool) (a : α) (n : Nat) :
    (List.replicate n a).countP p = if p a then n else 0 := by
  induction n with
  | zero => simp
  | succ n ih =>
    rw [List.replicate_succ, List.countP_cons, ih]
    by_cases h : p a <;> simp [h]

/-- Claim C6: encoding an envelope (identifier, possibly-null message list,
possibly-null callbackId) to the wire JSON object and decoding it back
reproduces all three fields exactly, including the `message: null` and
`callbackId: null` cases. -/
theorem C6_envelope_roundtrip (m : IWSMessage) :
    parseWSMessage (getMessageJSON m.identifier m.message m.callbackId false) =
      some m := by
  obtain ⟨idf, msg, cb⟩ := m
  cases msg <;> cases cb <;> rfl

/-- Claim C1 counterexample: a waiter registers its one-shot reply handler
under the fresh correlation id and the timeout then fires; the waiter does
resolve to the absent value, but the registration under the correlation id
still exists afterwards — the timer path never removes it. -/
theorem C1_timeout_leak_counterexample :
    (waiterOnTimeout (waiterSend [] "evt" [] "u1").1 "u1").2 = none ∧
    hasHandler (waiterOnTimeout (waiterSend [] "evt" [] "u1").1 "u1").1 "u1" = true :=
  ⟨rfl, rfl⟩

/-- Claim C1 amended: when the timeout wins the waiter race the promise
resolves to the absent value (not an error), but the message-handler
registration under the correlation id is not removed — the callback map is
left exactly as it was, still holding the registration; only the reply path
removes the registration (and it resolves with the first reply payload
element). -/
theorem C1_waiter_timeout_amended (m : CallbackMap) (identifier uuid : String)
    (data args : List JVal) :
    (waiterSend m identifier data uuid).2.callbackId = some uuid ∧
    waiterOnTimeout (waiterSend m identifier data uuid).1 uuid =
      ((waiterSend m identifier data uuid).1, none) ∧
    hasHandler (waiterSend m identifier data uuid).1 uuid = true ∧
    hasHandler (waiterOnReply (waiterSend m identifier data uuid).1 uuid args).1 uuid
      = false ∧
    (waiterOnReply (waiterSend m identifier data uuid).1 uuid args).2 = args.head? := by
  refine ⟨rfl, rfl, ?_, ?_, rfl⟩
  · simp [hasHandler, waiterSend, lookupCallback, setMessageHandler,
      assocFind_set_self]
  · simp [hasHandler, waiterOnReply, removeMessageHandler, lookupCallback,
      assocFind_delete_self]

/-- Claim C10: every `banClient` call closes the client socket with the
BANNED close code 4002; a ban-table entry is recorded only when the client
ip is defined, and for a client with an undefined ip the whole registry
state (ban table included) is left unchanged, so a peer with an undefined
address is never rejected at connect time. -/
theorem C10_banClient_frame (st : RegistryState) (c : Conn) (reason : Option String) :
    (banClient st c reason).2 = [Effect.closeSocket CloseCodes.BANNED reason] ∧
    CloseCodes.BANNED = 4002 ∧
    (c.ip = none → (banClient st c reason).1 = st) ∧
    (banClient st c reason).1.clients = st.clients ∧
    (banClient st c reason).1.hasrequested = st.hasrequested ∧
    (∀ a : String,
      banLookup (banClient st c reason).1.bannedIpsAndReasons (some a) ≠
        banLookup st.bannedIpsAndReasons (some a) → c.ip = some a) ∧
    (onConnection st none).2.countP Effect.isCloseSocket = 0 := by
  refine ⟨rfl, rfl, ?_, rfl, rfl, ?_, ?_⟩
  · intro h
    simp [banClient, h]
  · intro a hne
    cases hip : c.ip with
    | none =>
      exfalso
      apply hne
      simp [banClient, hip]
    | some ip =>
      by_cases hemp : ip = ""
      · exfalso
        apply hne
        simp [banClient, hip, hemp]
      · by_cases hak : a = ip
        · rw [hak]
        · exfalso
          apply hne
          simp only [banClient, hip, banSet, banLookup]
          rw [if_neg (by simpa using hemp)]
          exact assocFind_set_ne _ _ _ _ hak
  · simp [onConnection, banLookup, countP_replicate, Effect.isCloseSocket]

theorem nodeClose_ok_status {st st' : WrapperState} {r : Option String}
    {fx : List Effect} (h : NodeServerWrapper.close st r = Except.ok (st', fx)) :
    st'.status = WSStatus.CLOSED := by
  unfold NodeServerWrapper.close at h
  by_cases hg : st.status = WSStatus.CLOSED ∨ st.status = WSStatus.ERROR
  · rw [if_pos hg] at h
    cases h
  · rw [if_neg hg] at h
    have h2 := Except.ok.inj h
    have h3 := congrArg (fun q => (Prod.fst q).status) h2
    simpa using h3.symm

theorem nodeCloseAsync_ok_status {st st' : WrapperState} {r : Option String}
    {fx : List Effect} (h : NodeServerWrapper.closeAsync st r = Except.ok (st', fx)) :
    st'.status = WSStatus.CLOSED := by
  unfold NodeServerWrapper.closeAsync at h
  by_cases hg : st.status = WSStatus.CLOSED ∨ st.status = WSStatus.ERROR
  · rw [if_pos hg] at h
    cases h
  · rw [if_neg hg] at h
    have h2 := Except.ok.inj h
    have h3 := congrArg (fun q => (Prod.fst q).status) h2
    simpa using h3.symm

theorem bunClose_ok_status {st st' : WrapperState} {r : Option String}
    {fx : List Effect} (h : BunServerWrapper.close st r = Except.ok (st', fx)) :
    st'.status = WSStatus.CLOSED := by
  unfold BunServerWrapper.close at h
  by_cases hg : st.status = WSStatus.CLOSED ∨ st.status = WSStatus.ERROR
  · rw [if_pos hg] at h
    cases h
  · rw [if_neg hg] at h
    have h2 := Except.ok.inj h
    have h3 := congrArg (fun q => (Prod.fst q).status) h2
    simpa using h3.symm

theorem bunCloseAsync_ok_status {st st' : WrapperState} {r : Option String}
    {fx : List Effect} (h : BunServerWrapper.closeAsync st r = Except.ok (st', fx)) :
    st'.status = WSStatus.CLOSED := by
  unfold BunServerWrapper.closeAsync at h
  by_cases hg : st.status = WSStatus.CLOSED ∨ st.status = WSStatus.ERROR
  · rw [if_pos hg] at h
    cases h
  · rw [if_neg hg] at h
    have h2 := Except.ok.inj h
    have h3 := congrArg (fun q => (Prod.fst q).status) h2
    simpa using h3.symm

theorem nodeClose_eq_ok {st : WrapperState} {r : Option String}
    (hg : ¬ (st.status = WSStatus.CLOSED ∨ st.status = WSStatus.ERROR)) :
    NodeServerWrapper.close st r = Except.ok ({ st with status := WSStatus.CLOSED },
      st.clients.map (fun _ => Effect.closeSocket CloseCodes.NORMAL
        (some (r.getD "The server has been stopped.")))) := by
  unfold NodeServerWrapper.close
  rw [if_neg hg]

theorem nodeCloseAsync_eq_ok {st : WrapperState} {r : Option String}
    (hg : ¬ (st.status = WSStatus.CLOSED ∨ st.status = WSStatus.ERROR)) :
    NodeServerWrapper.closeAsync st r =
      Except.ok ({ st with status := WSStatus.CLOSED },
        st.clients.map (fun _ => Effect.closeSocket CloseCodes.NORMAL
          (some (r.getD "The server has been stopped.")))) := by
  unfold NodeServerWrapper.closeAsync
  rw [if_neg hg]

theorem bunClose_eq_ok {st : WrapperState} {r : Option String}
    (hg : ¬ (st.status = WSStatus.CLOSED ∨ st.status = WSStatus.ERROR)) :
    BunServerWrapper.close st r = Except.ok (⟨WSStatus.CLOSED, []⟩,
      st.clients.map (fun _ => Effect.closeSocket CloseCodes.NORMAL
        (some (r.getD "The server has been stopped.")))) := by
  unfold BunServerWrapper.close
  rw [if_neg hg]

theorem bunCloseAsync_eq_ok {st : WrapperState} {r : Option String}
    (hg : ¬ (st.status = WSStatus.CLOSED ∨ st.status = WSStatus.ERROR)) :
    BunServerWrapper.closeAsync st r = Except.ok (⟨WSStatus.CLOSED, []⟩,
      st.clients.map (fun _ => Effect.closeSocket CloseCodes.NORMAL
        (some (r.getD "The server has been stopped.")))) := by
  unfold BunServerWrapper.closeAsync
  rw [if_neg hg]

theorem wrapperReachable_status {st : WrapperState} (h : WrapperReachable st) :
    st.status = WSStatus.OPEN ∨ st.status = WSStatus.CLOSED := by
  induction h with
  | started clients => exact Or.inl rfl
  | clientsChanged st clients _ ih => exact ih
  | nodeClosed st st' r fx _ heq _ => exact Or.inr (nodeClose_ok_status heq)
  | nodeClosedAsync st st' r fx _ heq _ => exact Or.inr (nodeCloseAsync_ok_status heq)
  | bunClosed st st' r fx _ heq _ => exact Or.inr (bunClose_ok_status heq)
  | bunClosedAsync st st' r fx _ heq _ => exact Or.inr (bunCloseAsync_ok_status heq)

/-- Claim C7: from any wrapper state a caller can hold, `close`/`closeAsync`
succeed exactly from the `OPEN` state, transitioning the wrapper to `CLOSED`;
invoked from `CLOSED` or `ERROR` they signal the "The server is not running"
error before performing any mutation, so there is no double close. -/
theorem C7_close_lifecycle (st : WrapperState) (r : Option String) :
    (WrapperReachable st →
      ((∃ out, NodeServerWrapper.close st r = Except.ok out) ↔
        st.status = WSStatus.OPEN) ∧
      ((∃ out, BunServerWrapper.closeAsync st r = Except.ok out) ↔
        st.status = WSStatus.OPEN)) ∧
    (st.status = WSStatus.OPEN →
      (∃ fx, NodeServerWrapper.close st r =
        Except.ok (⟨WSStatus.CLOSED, st.clients⟩, fx)) ∧
      (∃ fx, NodeServerWrapper.closeAsync st r =
        Except.ok (⟨WSStatus.CLOSED, st.clients⟩, fx)) ∧
      (∃ fx, BunServerWrapper.close st r = Except.ok (⟨WSStatus.CLOSED, []⟩, fx)) ∧
      (∃ fx, BunServerWrapper.closeAsync st r = Except.ok (⟨WSStatus.CLOSED, []⟩, fx))) ∧
    (st.status = WSStatus.CLOSED ∨ st.status = WSStatus.ERROR →
      NodeServerWrapper.close st r = Except.error "The server is not running" ∧
      NodeServerWrapper.closeAsync st r = Except.error "The server is not running" ∧
      BunServerWrapper.close st r = Except.error "The server is not running" ∧
      BunServerWrapper.closeAsync st r = Except.error "The server is not running") := by
  refine ⟨?_, ?_, ?_⟩
  · intro hreach
    have hst := wrapperReachable_status hreach
    have fwdN : (∃ out, NodeServerWrapper.close st r = Except.ok out) →
        st.status = WSStatus.OPEN := by
      rintro ⟨out, hok⟩
      rcases hst with hO | hC
      · exact hO
      · exfalso
        unfold NodeServerWrapper.close at hok
        rw [if_pos (Or.inl hC)] at hok
        cases hok
    have fwdB : (∃ out, BunServerWrapper.closeAsync st r = Except.ok out) →
        st.status = WSStatus.OPEN := by
      rintro ⟨out, hok⟩
      rcases hst with hO | hC
      · exact hO
      · exfalso
        unfold BunServerWrapper.closeAsync at hok
        rw [if_pos (Or.inl hC)] at hok
        cases hok
    exact ⟨⟨fwdN, fun hO => ⟨_, nodeClose_eq_ok (by simp [hO])⟩⟩,
      ⟨fwdB, fun hO => ⟨_, bunCloseAsync_eq_ok (by simp [hO])⟩⟩⟩
  · intro hO
    have hg : ¬ (st.status = WSStatus.CLOSED ∨ st.status = WSStatus.ERROR) := by
      simp [hO]
    exact ⟨⟨_, nodeClose_eq_ok hg⟩, ⟨_, nodeCloseAsync_eq_ok hg⟩,
      ⟨_, bunClose_eq_ok hg⟩, ⟨_, bunCloseAsync_eq_ok hg⟩⟩
  · intro hg
    refine ⟨?_, ?_, ?_, ?_⟩
    · unfold NodeServerWrapper.close
      rw [if_pos hg]
    · unfold NodeServerWrapper.closeAsync
      rw [if_pos hg]
    · unfold BunServerWrapper.close
      rw [if_pos hg]
    · unfold BunServerWrapper.closeAsync
      rw [if_pos hg]

/-- Claim C7 witness: closing an open wrapper with no clients succeeds and
reaches `CLOSED`; closing an already-closed wrapper errors with the
"not running" message. -/
theorem C7_close_lifecycle_witness :
    (∃ fx, NodeServerWrapper.close ⟨WSStatus.OPEN, []⟩ none =
      Except.ok (⟨WSStatus.CLOSED, []⟩, fx)) ∧
    NodeServerWrapper.close ⟨WSStatus.CLOSED, []⟩ none =
      Except.error "The server is not running" ∧
    BunServerWrapper.closeAsync ⟨WSStatus.ERROR, []⟩ none =
      Except.error "The server is not running" :=
  ⟨((C7_close_lifecycle ⟨WSStatus.OPEN, []⟩ none).2.1 rfl).1,
   ((C7_close_lifecycle ⟨WSStatus.CLOSED, []⟩ none).2.2 (Or.inl rfl)).1,
   ((C7_close_lifecycle ⟨WSStatus.ERROR, []⟩ none).2.2 (Or.inr rfl)).2.2.2⟩

theorem waiterRace_time_le (timeout : Nat) (r : Option (Nat × JVal)) :
    (waiterRace timeout r).time ≤ timeout := by
  cases r with
  | none => simp [waiterRace]
  | some p =>
    obtain ⟨t, v⟩ := p
    by_cases h : t < timeout
    · simp only [waiterRace, if_pos h]
      exact Nat.le_of_lt h
    · simp [waiterRace, if_neg h]

theorem foldr_max_time_le (l : List WaiterOutcome) (b : Nat)
    (h : ∀ o ∈ l, o.time ≤ b) :
    l.foldr (fun o acc => max o.time acc) 0 ≤ b := by
  induction l with
  | nil => exact Nat.zero_le b
  | cons a l ih =>
    simp only [List.foldr_cons]
    exact max_le (h a (List.mem_cons_self a l))
      (ih fun o ho => h o (List.mem_cons_of_mem a ho))

/-- Claim C4: a broadcast waiter over the live-connection snapshot taken at
call time resolves to a result list with exactly one entry per snapshot
member, in snapshot order; a connection whose reply arrives before the
timeout contributes its value at its snapshot position, a non-responding
connection contributes the explicit absent marker (the uniform policy), and
the aggregate resolves no later than the configured timeout. -/
theorem C4_broadcast_aggregate (timeout : Nat)
    (replies : List (Option (Nat × JVal))) :
    (broadcastWaiterTimeout timeout replies).1.length = replies.length ∧
    (∀ i : Nat, (broadcastWaiterTimeout timeout replies).1[i]? =
      replies[i]?.map (fun r => (waiterRace timeout r).value)) ∧
    (∀ i : Nat, ∀ t : Nat, ∀ v : JVal,
      replies[i]? = some (some (t, v)) → t < timeout →
      (broadcastWaiterTimeout timeout replies).1[i]? = some (some v)) ∧
    (∀ i : Nat, replies[i]? = some none →
      (broadcastWaiterTimeout timeout replies).1[i]? = some none) ∧
    (broadcastWaiterTimeout timeout replies).2 ≤ timeout := by
  have hvals : (broadcastWaiterTimeout timeout replies).1 =
      replies.map (fun r => (waiterRace timeout r).value) := by
    simp [broadcastWaiterTimeout, collectSettled, List.map_map]
  have hget : ∀ i : Nat, (broadcastWaiterTimeout timeout replies).1[i]? =
      replies[i]?.map (fun r => (waiterRace timeout r).value) := by
    intro i
    rw [hvals, List.getElem?_map]
  refine ⟨by rw [hvals, List.length_map], hget, ?_, ?_, ?_⟩
  · intro i t v hi ht
    rw [hget i, hi]
    simp [waiterRace, if_pos ht]
  · intro i hi
    rw [hget i, hi]
    simp [waiterRace]
  · exact foldr_max_time_le _ _ (fun o ho => by
      obtain ⟨r, _, rfl⟩ := List.mem_map.mp ho
      exact waiterRace_time_le timeout r)

/-- Claim C4 witness: over a two-connection snapshot where the first replies
in time and the second never does, the aggregate has one entry per snapshot
member in order, present value then absent marker, and resolves within the
timeout. -/
theorem C4_broadcast_aggregate_witness :
    (broadcastWaiterTimeout 5 [some (1, JVal.str "x"), none]).1.length = 2 ∧
    (broadcastWaiterTimeout 5 [some (1, JVal.str "x"), none]).1[0]? =
      some (some (JVal.str "x")) ∧
    (broadcastWaiterTimeout 5 [some (1, JVal.str "x"), none]).1[1]? = some none ∧
    (broadcastWaiterTimeout 5 [some (1, JVal.str "x"), none]).2 ≤ 5 := by
  have h := C4_broadcast_aggregate 5 [some (1, JVal.str "x"), none]
  exact ⟨h.1, h.2.2.1 0 1 (JVal.str "x") rfl (by decide),
    h.2.2.2.1 1 rfl, h.2.2.2.2⟩

theorem innerEvent_mem (st : ServerState) (m : IWSMessage) (e : Effect)
    (he : e ∈ innerEvent st m) :
    e = Effect.warnBadMessage ∨ (∃ c, e = Effect.storeSyncedCookies c) ∨
      e = Effect.fireCookieSync := by
  unfold innerEvent at he
  split at he
  · split at he
    · split at he
      · rcases List.mem_cons.mp he with he | he
        · exact Or.inr (Or.inl ⟨_, he⟩)
        · exact Or.inr (Or.inr (List.eq_of_mem_replicate he))
      · exact Or.inl (by simpa using he)
    · cases he
  · cases he

theorem innerEvent_countP_user (st : ServerState) (m : IWSMessage)
    (p : Effect → Bool) (h1 : p Effect.warnBadMessage = false)
    (h2 : ∀ c, p (Effect.storeSyncedCookies c) = false)
    (h3 : p Effect.fireCookieSync = false) :
    (innerEvent st m).countP p = 0 := by
  refine List.countP_eq_zero.mpr ?_
  intro e he
  rcases innerEvent_mem st m e he with h | ⟨c, h⟩ | h <;> subst h <;>
    simp [h1, h2, h3]

theorem userObserverFx_countP (st : ServerState) (raw : String) (m : IWSMessage)
    (p : Effect → Bool) :
    (userObserverFx st raw m).countP p =
      (if p (Effect.fireRaw raw) then st.rawObservers else 0) +
        (if p (Effect.fireBefore (stripMarker m.identifier) m.message) then
          st.beforeObservers else 0) := by
  simp [userObserverFx, List.countP_append, countP_replicate]

theorem userObserverFx_mem (st : ServerState) (raw : String) (m : IWSMessage)
    (e : Effect) (he : e ∈ userObserverFx st raw m) :
    e = Effect.fireRaw raw ∨
      e = Effect.fireBefore (stripMarker m.identifier) m.message := by
  rcases List.mem_append.mp he with h | h
  · exact Or.inl (List.eq_of_mem_replicate h)
  · exact Or.inr (List.eq_of_mem_replicate h)

theorem replyFx_mem (cb : Option String) (val : JVal) (e : Effect)
    (he : e ∈ replyFx cb val) :
    ∃ cid, cb = some cid ∧ (cid == "") = false ∧
      e = Effect.sendEnvelope ⟨cid, some [val], none⟩ := by
  cases cb with
  | none => cases he
  | some cid =>
    by_cases hc : (cid == "") = true
    · rw [replyFx, if_pos hc] at he
      cases he
    · have hc' : (cid == "") = false := by simpa using hc
      rw [replyFx, if_neg hc] at he
      exact ⟨cid, rfl, hc', by simpa using he⟩

theorem replyFx_countP (cb : Option String) (val : JVal) (p : Effect → Bool)
    (h : ∀ e, p (Effect.sendEnvelope e) = false) :
    (replyFx cb val).countP p = 0 := by
  refine List.countP_eq_zero.mpr ?_
  intro e he
  obtain ⟨cid, _, _, rfl⟩ := replyFx_mem cb val e he
  simp [h]

theorem dispatch_inner (st : ServerState) (raw : String) (m : IWSMessage)
    (hm : hasMarker m.identifier = false) :
    callMessageHandler st raw (some m) = (st.callbacks, innerEvent st m) := by
  simp [callMessageHandler, hm]

theorem dispatch_marker_miss (st : ServerState) (raw : String) (m : IWSMessage)
    (hm : hasMarker m.identifier = true)
    (h : lookupCallback st.callbacks (stripMarker m.identifier) = none ∨
      m.message = none) :
    callMessageHandler st raw (some m) = (st.callbacks, userObserverFx st raw m) := by
  rcases h with h | h
  · cases hmsg : m.message <;> simp [callMessageHandler, hm, h, hmsg]
  · cases hl : lookupCallback st.callbacks (stripMarker m.identifier) <;>
      simp [callMessageHandler, hm, h, hl]

theorem dispatch_marker_hit (st : ServerState) (raw : String) (m : IWSMessage)
    (reg : Registration) (payload : List JVal)
    (hm : hasMarker m.identifier = true)
    (hl : lookupCallback st.callbacks (stripMarker m.identifier) = some reg)
    (hmsg : m.message = some payload) :
    callMessageHandler st raw (some m) =
      ((applyRegistration st.callbacks (stripMarker m.identifier) reg payload).1,
        userObserverFx st raw m ++
          Effect.invokeHandler (stripMarker m.identifier) payload ::
            replyFx m.callbackId
              (applyRegistration st.callbacks (stripMarker m.identifier) reg
                payload).2) := by
  simp [callMessageHandler, hm, hl, hmsg]

/-- Claim C2 counterexample: the inbound envelope `{identifier: "@ping",
message: [], callbackId: null}` has an identifier starting with the reserved
marker, yet the dispatcher does not treat it as a built-in: with one
registered before-callback observer it fires that user-facing observer (with
the stripped identifier) instead of routing to the built-in branch, refuting
the claimed marker semantics. -/
theorem C2_marker_counterexample :
    hasMarker "@ping" = true ∧
    (callMessageHandler ⟨[], 0, 1, 0⟩ "r" (some ⟨"@ping", some [], none⟩)).2 =
      [Effect.fireBefore "ping" (some [])] :=
  ⟨rfl, rfl⟩

/-- Claim C2 amended: the dispatcher marker semantics is the reverse of the
claim. An inbound envelope whose identifier does not start with the marker
is routed to the built-in branch (cookie-sync being the only built-in) and
fires no user-facing raw-message or before-callback observers and invokes no
user handler; an envelope whose identifier does start with the marker fires
every registered raw-message and before-callback observer and looks up the
user handler table under the identifier with the marker stripped. -/
theorem C2_marker_routing_amended (st : ServerState) (raw : String)
    (m : IWSMessage) :
    (hasMarker m.identifier = false →
      callMessageHandler st raw (some m) = (st.callbacks, innerEvent st m) ∧
      (callMessageHandler st raw (some m)).2.countP Effect.isFireBefore = 0 ∧
      (callMessageHandler st raw (some m)).2.countP Effect.isFireRaw = 0 ∧
      (callMessageHandler st raw (some m)).2.countP Effect.isInvoke = 0) ∧
    (hasMarker m.identifier = true →
      (callMessageHandler st raw (some m)).2.countP Effect.isFireRaw =
        st.rawObservers ∧
      (callMessageHandler st raw (some m)).2.countP Effect.isFireBefore =
        st.beforeObservers ∧
      (∀ i args, Effect.invokeHandler i args ∈
          (callMessageHandler st raw (some m)).2 →
        i = stripMarker m.identifier ∧
        hasHandler st.callbacks (stripMarker m.identifier) = true)) := by
  constructor
  · intro hm
    have hd := dispatch_inner st raw m hm
    refine ⟨hd, ?_, ?_, ?_⟩ <;> rw [hd] <;>
      exact innerEvent_countP_user st m _ rfl (fun c => rfl) rfl
  · intro hm
    have huser : ∀ fx2 : List Effect,
        (userObserverFx st raw m ++ fx2).countP Effect.isFireRaw =
            st.rawObservers + fx2.countP Effect.isFireRaw ∧
          (userObserverFx st raw m ++ fx2).countP Effect.isFireBefore =
            st.beforeObservers + fx2.countP Effect.isFireBefore := by
      intro fx2
      constructor <;>
        rw [List.countP_append, userObserverFx_countP] <;> simp [Effect.isFireRaw,
          Effect.isFireBefore]
    cases hmsg : m.message with
    | none =>
      have hd := dispatch_marker_miss st raw m hm (Or.inr hmsg)
      rw [hd]
      have h0 := huser []
      simp only [List.append_nil] at h0
      refine ⟨by simpa using h0.1, by simpa using h0.2, ?_⟩
      intro i args hmem
      rcases userObserverFx_mem st raw m _ hmem with h | h <;> cases h
    | some payload =>
      cases hl : lookupCallback st.callbacks (stripMarker m.identifier) with
      | none =>
        have hd := dispatch_marker_miss st raw m hm (Or.inl hl)
        rw [hd]
        have h0 := huser []
        simp only [List.append_nil] at h0
        refine ⟨by simpa using h0.1, by simpa using h0.2, ?_⟩
        intro i args hmem
        rcases userObserverFx_mem st raw m _ hmem with h | h <;> cases h
      | some reg =>
        have hd := dispatch_marker_hit st raw m reg payload hm hl hmsg
        rw [hd]
        have hreply1 := replyFx_countP m.callbackId
          (applyRegistration st.callbacks (stripMarker m.identifier) reg payload).2
          Effect.isFireRaw (fun e => rfl)
        have hreply2 := replyFx_countP m.callbackId
          (applyRegistration st.callbacks (stripMarker m.identifier) reg payload).2
          Effect.isFireBefore (fun e => rfl)
        have h0 := huser (Effect.invokeHandler (stripMarker m.identifier) payload ::
          replyFx m.callbackId
            (applyRegistration st.callbacks (stripMarker m.identifier) reg payload).2)
        refine ⟨?_, ?_, ?_⟩
        · rw [h0.1, List.countP_cons, hreply1]
          simp [Effect.isFireRaw]
        · rw [h0.2, List.countP_cons, hreply2]
          simp [Effect.isFireBefore]
        · intro i args hmem
          rcases List.mem_append.mp hmem with h | h
          · rcases userObserverFx_mem st raw m _ h with h | h <;> cases h
          · rcases List.mem_cons.mp h with h | h
            · simp only [Effect.invokeHandler.injEq] at h
              exact ⟨h.1, by simp [hasHandler, lookupCallback] at hl ⊢; simp [hl]⟩
            · obtain ⟨cid, _, _, he⟩ := replyFx_mem _ _ _ h
              simp at he

/-- Claim C2 amended witness: a cookie-sync envelope (no marker) produces no
user-facing observer effects, and a marker envelope with one raw observer
fires it. -/
theorem C2_marker_routing_amended_witness :
    (callMessageHandler ⟨[], 1, 1, 0⟩ "r" (some ⟨"SyncCookies", none, none⟩)).2.countP
      Effect.isFireBefore = 0 ∧
    (callMessageHandler ⟨[], 1, 1, 0⟩ "r" (some ⟨"@x", none, none⟩)).2.countP
      Effect.isFireRaw = 1 :=
  ⟨((C2_marker_routing_amended ⟨[], 1, 1, 0⟩ "r" ⟨"SyncCookies", none, none⟩).1
      rfl).2.1,
   ((C2_marker_routing_amended ⟨[], 1, 1, 0⟩ "r" ⟨"@x", none, none⟩).2 rfl).1⟩

/-- Claim C5 counterexample: a handler is registered under `"ev"`, the
envelope `{identifier: "@ev", message: [1], callbackId: ""}` carries a
non-null callbackId, and the handler is invoked — yet no reply envelope is
sent, because the dispatcher guards the reply on the truthiness of
`callbackId` and the empty string is falsy. -/
theorem C5_empty_callbackId_counterexample :
    (callMessageHandler
        ⟨[("ev", Registration.persistent (fun _ => JVal.str "ret"))], 0, 0, 0⟩
        "r" (some ⟨"@ev", some [JVal.num 1], some ""⟩)).2.countP Effect.isInvoke = 1 ∧
    (callMessageHandler
        ⟨[("ev", Registration.persistent (fun _ => JVal.str "ret"))], 0, 0, 0⟩
        "r" (some ⟨"@ev", some [JVal.num 1], some ""⟩)).2.countP
      Effect.isSendEnvelope = 0 ∧
    some "" ≠ (none : Option String) :=
  ⟨rfl, rfl, by simp⟩

/-- Claim C5 amended: for a dispatched user envelope the registered handler
is invoked with the spread payload list exactly when a registration exists
under the stripped identifier and the payload list is present; when the
handler produces a value and the envelope callbackId is non-null and
non-empty, a reply envelope is sent whose identifier is that callbackId,
whose message wraps the returned value in a one-element list and whose own
callbackId is null; a null or empty callbackId sends no reply. -/
theorem C5_user_dispatch_amended (st : ServerState) (raw wid : String)
    (msg : Option (List JVal)) (cb : Option String)
    (hm : hasMarker wid = true) :
    ((∃ args, Effect.invokeHandler (stripMarker wid) args ∈
        (callMessageHandler st raw (some ⟨wid, msg, cb⟩)).2) ↔
      (hasHandler st.callbacks (stripMarker wid) = true ∧ msg.isSome = true)) ∧
    (∀ args, Effect.invokeHandler (stripMarker wid) args ∈
        (callMessageHandler st raw (some ⟨wid, msg, cb⟩)).2 → msg = some args) ∧
    (∀ reg payload cid,
      lookupCallback st.callbacks (stripMarker wid) = some reg →
      msg = some payload → cb = some cid → cid ≠ "" →
      Effect.sendEnvelope ⟨cid,
          some [(applyRegistration st.callbacks (stripMarker wid) reg payload).2],
          none⟩ ∈
        (callMessageHandler st raw (some ⟨wid, msg, cb⟩)).2) ∧
    (cb = none ∨ cb = some "" →
      (callMessageHandler st raw (some ⟨wid, msg, cb⟩)).2.countP
        Effect.isSendEnvelope = 0) := by
  refine ⟨⟨?_, ?_⟩, ?_, ?_, ?_⟩
  · rintro ⟨args, hmem⟩
    cases hmsg : msg with
    | none =>
      rw [dispatch_marker_miss st raw _ hm (Or.inr hmsg)] at hmem
      rcases userObserverFx_mem _ _ _ _ hmem with h | h <;> cases h
    | some payload =>
      cases hl : lookupCallback st.callbacks (stripMarker wid) with
      | none =>
        rw [dispatch_marker_miss st raw _ hm (Or.inl hl)] at hmem
        rcases userObserverFx_mem _ _ _ _ hmem with h | h <;> cases h
      | some reg =>
        exact ⟨by simp [hasHandler, lookupCallback] at hl ⊢; simp [hl],
          by simp [hmsg]⟩
  · rintro ⟨hhas, hsome⟩
    obtain ⟨payload, hmsg⟩ := Option.isSome_iff_exists.mp hsome
    obtain ⟨reg, hl⟩ := Option.isSome_iff_exists.mp hhas
    refine ⟨payload, ?_⟩
    rw [dispatch_marker_hit st raw _ reg payload hm hl hmsg]
    exact List.mem_append.mpr (Or.inr (List.mem_cons_self _ _))
  · intro args hmem
    cases hmsg : msg with
    | none =>
      rw [dispatch_marker_miss st raw _ hm (Or.inr hmsg)] at hmem
      rcases userObserverFx_mem _ _ _ _ hmem with h | h <;> cases h
    | some payload =>
      cases hl : lookupCallback st.callbacks (stripMarker wid) with
      | none =>
        rw [dispatch_marker_miss st raw _ hm (Or.inl hl)] at hmem
        rcases userObserverFx_mem _ _ _ _ hmem with h | h <;> cases h
      | some reg =>
        rw [dispatch_marker_hit st raw _ reg payload hm hl hmsg] at hmem
        rcases List.mem_append.mp hmem with h | h
        · rcases userObserverFx_mem _ _ _ _ h with h | h <;> cases h
        · rcases List.mem_cons.mp h with h | h
          · simp only [Effect.invokeHandler.injEq] at h
            rw [h.2]
          · obtain ⟨cid, _, _, he⟩ := replyFx_mem _ _ _ h
            simp at he
  · intro reg payload cid hl hmsg hcb hcid
    rw [dispatch_marker_hit st raw _ reg payload hm hl hmsg]
    refine List.mem_append.mpr (Or.inr (List.mem_cons.mpr (Or.inr ?_)))
    have hcid' : (cid == "") = false := beq_eq_false_iff_ne.mpr hcid
    show Effect.sendEnvelope _ ∈
      replyFx cb (applyRegistration st.callbacks (stripMarker wid) reg payload).2
    rw [hcb]
    simp [replyFx, hcid']
  · intro hcb
    have hsend0 : ∀ cbv val, cbv = none ∨ cbv = some "" →
        (replyFx cbv val).countP Effect.isSendEnvelope = 0 := by
      rintro cbv val (rfl | rfl)
      · rfl
      · rfl
    cases msg with
    | none =>
      rw [dispatch_marker_miss st raw _ hm (Or.inr rfl)]
      rw [userObserverFx_countP]
      simp [Effect.isSendEnvelope]
    | some payload =>
      cases hl : lookupCallback st.callbacks (stripMarker wid) with
      | none =>
        rw [dispatch_marker_miss st raw _ hm (Or.inl hl)]
        rw [userObserverFx_countP]
        simp [Effect.isSendEnvelope]
      | some reg =>
        rw [dispatch_marker_hit st raw _ reg payload hm hl rfl]
        rw [List.countP_append, List.countP_cons, userObserverFx_countP]
        have := hsend0 cb
          (applyRegistration st.callbacks (stripMarker wid) reg payload).2 hcb
        simp [Effect.isSendEnvelope, this]

/-- Claim C5 amended witness: with a handler under `"ev"` returning a fixed
value and the envelope `{identifier: "@ev", message: [1], callbackId: "cb"}`,
the handler is invoked and the reply envelope `{identifier: "cb",
message: [value], callbackId: null}` is sent. -/
theorem C5_user_dispatch_amended_witness :
    Effect.invokeHandler "ev" [JVal.num 1] ∈
      (callMessageHandler
        ⟨[("ev", Registration.persistent (fun _ => JVal.str "ret"))], 0, 0, 0⟩
        "r" (some ⟨"@ev", some [JVal.num 1], some "cb"⟩)).2 ∧
    Effect.sendEnvelope ⟨"cb", some [JVal.str "ret"], none⟩ ∈
      (callMessageHandler
        ⟨[("ev", Registration.persistent (fun _ => JVal.str "ret"))], 0, 0, 0⟩
        "r" (some ⟨"@ev", some [JVal.num 1], some "cb"⟩)).2 := by
  have h := C5_user_dispatch_amended
    ⟨[("ev", Registration.persistent (fun _ => JVal.str "ret"))], 0, 0, 0⟩
    "r" "@ev" (some [JVal.num 1]) (some "cb") rfl
  constructor
  · obtain ⟨args, hmem⟩ := h.1.mpr ⟨rfl, rfl⟩
    have hargs : args = [JVal.num 1] := by simpa using (h.2.1 args hmem).symm
    rw [hargs] at hmem
    exact hmem
  · exact h.2.2.1 (Registration.persistent (fun _ => JVal.str "ret"))
      [JVal.num 1] "cb" rfl rfl rfl (by simp)

/-- Claim C9: a handler registered through `onceMessageHandler` runs at most
once: on the first matching dispatch the registration is removed from the
shared handler map (the wrapper removes it before running the wrapped
callback), so afterwards no registration exists under that identifier and a
second message with the same identifier invokes nothing; the wrapped
callback's return value is still propagated, so a reply can be correlated
when the envelope carries a usable callbackId. -/
theorem C9_once_auto_removal (st : ServerState) (wid : String) (f : HandlerFn)
    (raw raw2 : String) (payload payload2 : List JVal) (cb cb2 : Option String)
    (hm : hasMarker wid = true)
    (hreg : lookupCallback st.callbacks (stripMarker wid) =
      some (Registration.once f)) :
    hasHandler (callMessageHandler st raw (some ⟨wid, some payload, cb⟩)).1
      (stripMarker wid) = false ∧
    Effect.invokeHandler (stripMarker wid) payload ∈
      (callMessageHandler st raw (some ⟨wid, some payload, cb⟩)).2 ∧
    (∀ cid, cb = some cid → cid ≠ "" →
      Effect.sendEnvelope ⟨cid, some [f payload], none⟩ ∈
        (callMessageHandler st raw (some ⟨wid, some payload, cb⟩)).2) ∧
    (callMessageHandler
        ⟨(callMessageHandler st raw (some ⟨wid, some payload, cb⟩)).1,
          st.rawObservers, st.beforeObservers, st.cookieSyncObservers⟩
        raw2 (some ⟨wid, some payload2, cb2⟩)).2.countP Effect.isInvoke = 0 := by
  have hd := dispatch_marker_hit st raw ⟨wid, some payload, cb⟩
    (Registration.once f) payload hm hreg rfl
  have happ : applyRegistration st.callbacks (stripMarker wid)
      (Registration.once f) payload =
      (removeMessageHandler st.callbacks (stripMarker wid), f payload) := rfl
  refine ⟨?_, ?_, ?_, ?_⟩
  · rw [hd]
    simp [hasHandler, lookupCallback, happ, removeMessageHandler,
      assocFind_delete_self]
  · rw [hd]
    exact List.mem_append.mpr (Or.inr (List.mem_cons_self _ _))
  · intro cid hcb hcid
    rw [hd]
    refine List.mem_append.mpr (Or.inr (List.mem_cons.mpr (Or.inr ?_)))
    have hcid' : (cid == "") = false := beq_eq_false_iff_ne.mpr hcid
    show Effect.sendEnvelope _ ∈ replyFx cb
      (applyRegistration st.callbacks (stripMarker wid)
        (Registration.once f) payload).2
    rw [hcb, happ]
    simp [replyFx, hcid']
  · have hnone : lookupCallback
        (callMessageHandler st raw (some ⟨wid, some payload, cb⟩)).1
        (stripMarker wid) = none := by
      rw [hd]
      show lookupCallback (applyRegistration st.callbacks (stripMarker wid)
        (Registration.once f) payload).1 (stripMarker wid) = none
      rw [happ]
      exact assocFind_delete_self _ _
    rw [dispatch_marker_miss _ raw2 _ hm (Or.inl hnone)]
    rw [userObserverFx_countP]
    simp [Effect.isInvoke]

/-- Claim C9 witness: with a one-shot handler under `"once1"`, the first
matching dispatch leaves no registration and a second identical message
invokes nothing. -/
theorem C9_once_auto_removal_witness :
    hasHandler (callMessageHandler
        ⟨[("once1", Registration.once (fun _ => JVal.num 7))], 0, 0, 0⟩
        "r" (some ⟨"@once1", some [], none⟩)).1 "once1" = false ∧
    (callMessageHandler
        ⟨(callMessageHandler
            ⟨[("once1", Registration.once (fun _ => JVal.num 7))], 0, 0, 0⟩
            "r" (some ⟨"@once1", some [], none⟩)).1, 0, 0, 0⟩
        "r2" (some ⟨"@once1", some [], none⟩)).2.countP Effect.isInvoke = 0 := by
  have h := C9_once_auto_removal
    ⟨[("once1", Registration.once (fun _ => JVal.num 7))], 0, 0, 0⟩
    "@once1" (fun _ => JVal.num 7) "r" "r2" [] [] none none rfl rfl
  exact ⟨h.1, h.2.2.2⟩

/-- Claim C8: a raw inbound message that fails to parse as an envelope makes
the dispatcher log a bad-message warning and drop it — the callback map is
untouched, no handler invoked, no reply sent, no socket closed (the parse
error is caught, nothing is thrown to the transport); an envelope addressing
a missing handler is likewise dropped without even the log; and no dispatch
of any inbound message ever closes the connection. -/
theorem C8_malformed_and_missing_dropped (st : ServerState) (raw : String) :
    callMessageHandler st raw none = (st.callbacks, [Effect.warnBadMessage]) ∧
    (∀ m : IWSMessage, hasMarker m.identifier = true →
      lookupCallback st.callbacks (stripMarker m.identifier) = none →
      callMessageHandler st raw (some m) = (st.callbacks, userObserverFx st raw m) ∧
      (callMessageHandler st raw (some m)).2.countP Effect.isInvoke = 0 ∧
      (callMessageHandler st raw (some m)).2.countP Effect.isSendEnvelope = 0 ∧
      (callMessageHandler st raw (some m)).2.countP Effect.isWarn = 0 ∧
      (callMessageHandler st raw (some m)).2.countP Effect.isCloseSocket = 0) ∧
    (∀ p : Option IWSMessage,
      (callMessageHandler st raw p).2.countP Effect.isCloseSocket = 0) := by
  refine ⟨rfl, ?_, ?_⟩
  · intro m hm hl
    have hd := dispatch_marker_miss st raw m hm (Or.inl hl)
    refine ⟨hd, ?_, ?_, ?_, ?_⟩ <;> rw [hd, userObserverFx_countP] <;>
      simp [Effect.isInvoke, Effect.isSendEnvelope, Effect.isWarn,
        Effect.isCloseSocket]
  · intro p
    cases p with
    | none => rfl
    | some m =>
      by_cases hm : hasMarker m.identifier
      · cases hmsg : m.message with
        | none =>
          rw [dispatch_marker_miss st raw m hm (Or.inr hmsg), userObserverFx_countP]
          simp [Effect.isCloseSocket]
        | some payload =>
          cases hl : lookupCallback st.callbacks (stripMarker m.identifier) with
          | none =>
            rw [dispatch_marker_miss st raw m hm (Or.inl hl), userObserverFx_countP]
            simp [Effect.isCloseSocket]
          | some reg =>
            rw [dispatch_marker_hit st raw m reg payload hm hl hmsg,
              List.countP_append, List.countP_cons, userObserverFx_countP,
              replyFx_countP _ _ _ (fun e => rfl)]
            simp [Effect.isCloseSocket]
      · have hm' : hasMarker m.identifier = false := by simpa using hm
        rw [dispatch_inner st raw m hm']
        exact innerEvent_countP_user st m _ rfl (fun c => rfl) rfl

/-- Claim C8 witness: a parse failure produces exactly the warning log, and
an envelope addressed to a missing handler invokes nothing. -/
theorem C8_malformed_and_missing_dropped_witness :
    callMessageHandler ⟨[], 1, 1, 0⟩ "nonsense" none =
      ([], [Effect.warnBadMessage]) ∧
    (callMessageHandler ⟨[], 1, 1, 0⟩ "r"
      (some ⟨"@nohandler", some [], none⟩)).2.countP Effect.isInvoke = 0 :=
  ⟨(C8_malformed_and_missing_dropped ⟨[], 1, 1, 0⟩ "nonsense").1,
   ((C8_malformed_and_missing_dropped ⟨[], 1, 1, 0⟩ "r").2.1
      ⟨"@nohandler", some [], none⟩ rfl rfl).2.1⟩

/-- Claim C3 counterexample: `banClient` records the address `1.2.3.4` in the
ban table (with no reason, since none was given); a subsequent connect
attempt from that address is not rejected at all — no close effect is
produced (the ban check requires a truthy stored reason) — and the new
Connection is appended to the registry's client list, refuting the claim
that a banned address can never acquire a live Connection there. -/
theorem C3_ban_bypass_counterexample :
    (banLookup (banClient ⟨[], [], false, 0⟩ ⟨some "1.2.3.4"⟩
        none).1.bannedIpsAndReasons (some "1.2.3.4")).isSome = true ∧
    (onConnection (banClient ⟨[], [], false, 0⟩ ⟨some "1.2.3.4"⟩ none).1
      (some "1.2.3.4")).2 = [] ∧
    (onConnection (banClient ⟨[], [], false, 0⟩ ⟨some "1.2.3.4"⟩ none).1
      (some "1.2.3.4")).1.clients = [⟨some "1.2.3.4"⟩] :=
  ⟨rfl, rfl, rfl⟩

/-- Claim C3 amended: `banClient` always closes the client socket with close
code 4002 (that part of the claim holds), but banning does not keep later
connections out of the registry: every connect attempt appends a Connection
to the client list regardless of the ban table, and the new socket is closed
(with code 4002, the only close code this path emits) exactly when no plain
HTTP request has been seen yet and the stored ban reason is a non-empty
string — a ban recorded without a reason, or any connect after an HTTP
request, leaves the new connection open. -/
theorem C3_ban_gap_amended (st : RegistryState) (addr : Option String)
    (c : Conn) (r : Option String) :
    (banClient st c r).2 = [Effect.closeSocket CloseCodes.BANNED r] ∧
    (onConnection st addr).1.clients = st.clients ++ [⟨addr⟩] ∧
    ((onConnection st addr).2.countP Effect.isCloseSocket ≠ 0 ↔
      (st.hasrequested = false ∧ ∃ reason,
        banLookup st.bannedIpsAndReasons addr = some (some reason) ∧
          reason ≠ "")) ∧
    (∀ code rs, Effect.closeSocket code rs ∈ (onConnection st addr).2 →
      code = CloseCodes.BANNED) := by
  have hrep : (List.replicate st.connectObservers
      Effect.fireClientConnect).countP Effect.isCloseSocket = 0 := by
    rw [countP_replicate]
    rfl
  refine ⟨rfl, rfl, ?_, ?_⟩
  · cases hr : st.hasrequested with
    | true =>
      simp [onConnection, hr, hrep, List.countP_append]
    | false =>
      cases hb : banLookup st.bannedIpsAndReasons addr with
      | none => simp [onConnection, hr, hb, hrep, List.countP_append]
      | some or =>
        cases or with
        | none => simp [onConnection, hr, hb, hrep, List.countP_append]
        | some rr =>
          by_cases hre : (rr == "") = true
          · have hre' : rr = "" := by simpa using hre
            simp [onConnection, hr, hb, hre, hre', hrep, List.countP_append]
          · have hrne : rr ≠ "" := by simpa using hre
            simp [onConnection, hr, hb, hre, hrep, List.countP_append,
              Effect.isCloseSocket, hrne]
  · intro code rs hmem
    simp only [onConnection] at hmem
    rcases List.mem_append.mp hmem with h | h
    · split at h
      · cases h
      · split at h
        · split at h
          · cases h
          · have h2 := List.mem_singleton.mp h
            simp only [Effect.closeSocket.injEq] at h2
            exact h2.1
        · cases h
    · have h2 := List.eq_of_mem_replicate h
      cases h2

/-- Claim C10 witness: banning a client with an undefined ip closes the
socket with code 4002 and leaves the registry state (ban table included)
completely unchanged. -/
theorem C10_banClient_frame_witness :
    (banClient ⟨[], [], false, 0⟩ ⟨none⟩ (some "why")).2 =
      [Effect.closeSocket CloseCodes.BANNED (some "why")] ∧
    (banClient ⟨[], [], false, 0⟩ ⟨none⟩ (some "why")).1 =
      ⟨[], [], false, 0⟩ :=
  ⟨(C10_banClient_frame ⟨[], [], false, 0⟩ ⟨none⟩ (some "why")).1,
   (C10_banClient_frame ⟨[], [], false, 0⟩ ⟨none⟩ (some "why")).2.2.1 rfl⟩

/-- Claim C3 amended witness: banning with a reason closes with code 4002,
and a later connect from the banned address is closed but still appended to
the client list. -/
theorem C3_ban_gap_amended_witness :
    (banClient ⟨[], [], false, 0⟩ ⟨some "9.9.9.9"⟩ (some "why")).2 =
      [Effect.closeSocket CloseCodes.BANNED (some "why")] ∧
    (onConnection ⟨[("9.9.9.9", some "why")], [], false, 0⟩
      (some "9.9.9.9")).1.clients = [⟨some "9.9.9.9"⟩] ∧
    (onConnection ⟨[("9.9.9.9", some "why")], [], false, 0⟩
      (some "9.9.9.9")).2.countP Effect.isCloseSocket ≠ 0 := by
  have h := C3_ban_gap_amended ⟨[("9.9.9.9", some "why")], [], false, 0⟩
    (some "9.9.9.9") ⟨some "9.9.9.9"⟩ (some "why")
  have h0 := C3_ban_gap_amended ⟨[], [], false, 0⟩ (some "9.9.9.9")
    ⟨some "9.9.9.9"⟩ (some "why")
  exact ⟨h0.1, h.2.1, h.2.2.1.mpr ⟨rfl, "why", rfl, by decide⟩⟩

end ZilaWS
